import Mathlib

/-!
Shallow embedding of the rizon-lang LSP backend (src/main.rs).

Source text is modelled as a `List Char` (the sequence of Unicode scalar
values of a Rust `String`); byte offsets are interpreted through the UTF-8
encoding width of each character.  A Rust slice `&text[..o]` panics when
`o` is not a character boundary or exceeds the byte length, so the slicing
operation returns an `Option`, and `none` throughout the development
means "the Rust code panics".  `u32` casts (`as u32`) are modelled as
`% 2 ^ 32` on `Nat`.

The external lexer and parser (crate `rizon_frontend`, out of scope per
the spec) are parameters of the pipeline: any function from text to
either a token list or a list of located errors.
-/

namespace RizonLsp

/-- LSP severity levels (subset of `tower_lsp::lsp_types::DiagnosticSeverity`). -/
inductive DiagnosticSeverity where
  | ERROR
  | WARNING
  | INFORMATION
  | HINT
  deriving DecidableEq

/-- LSP `Position` as built in `rev_result_to_diagnostic`: `line` and
`character` are `u32` values, modelled as `Nat` reduced `% 2 ^ 32` at the
construction site. -/
structure Position where
  line : Nat
  character : Nat
  deriving DecidableEq

/-- LSP `Range`: a start and an end position. -/
structure Range where
  start : Position
  «end» : Position
  deriving DecidableEq

/-- LSP `Diagnostic`, keeping the three fields `rev_result_to_diagnostic`
sets explicitly (`range`, `severity`, `message`); the remaining fields are
filled by `Default::default()` in the source and are omitted. -/
structure Diagnostic where
  range : Range
  severity : Option DiagnosticSeverity
  message : String
  deriving DecidableEq

/-- `rizon_tools::results::Loc`: a byte span with fields `start` and `end`. -/
structure Loc where
  start : Nat
  «end» : Nat
  deriving DecidableEq

/-- `Loc::new(start, end)`. -/
def Loc.new (s e : Nat) : Loc := ⟨s, e⟩

/-- `rizon_tools::results::RizonResult<T>`: an optional location plus an
error value of the report type `T`; `get_err_msg` on `T` is passed as a
function parameter where needed. -/
structure RizonResult (T : Type) where
  loc : Option Loc
  err : T

/-- Number of bytes of the UTF-8 encoding of one character. -/
def utf8Len (c : Char) : Nat :=
  if c.val < 0x80 then 1 else if c.val < 0x800 then 2
  else if c.val < 0x10000 then 3 else 4

/-- Byte length of a text, i.e. Rust `text.len()` on the `String`. -/
def byteLen (text : List Char) : Nat := (text.map utf8Len).sum

/-- Rust `&text[..n]`: the characters making up exactly the first `n`
bytes, or `none` (a panic) when `n` overshoots the text or lands inside
the UTF-8 encoding of a character. -/
def sliceTo : List Char → Nat → Option (List Char)
  | _, 0 => some []
  | [], _ + 1 => none
  | c :: cs, n + 1 =>
      if utf8Len c ≤ n + 1 then (sliceTo cs (n + 1 - utf8Len c)).map (c :: ·)
      else none

/-- `s.chars().filter(|c| *c == '\n').count()`. -/
def countNewlines (s : List Char) : Nat :=
  (s.filter (fun c => c == '\n')).length

/-- Rust `as u32` on a non-negative integer. -/
def u32 (n : Nat) : Nat := n % 2 ^ 32

/-- `rev_result_to_diagnostic` (src/main.rs:113-134): takes a located
error and the source text, substitutes `Loc::new(0, 0)` for an absent
location, computes each position line as the newline count of the byte
slice up to the offset and the character as the raw offset, and builds an
ERROR diagnostic carrying the error message verbatim.  `none` means the
Rust code panicked (in the string slicing). -/
def rev_result_to_diagnostic {T : Type} (get_err_msg : T → String)
    (res : RizonResult T) (text : List Char) : Option Diagnostic :=
  let loc := res.loc.getD (Loc.new 0 0)
  match sliceTo text loc.start with
  | none => none
  | some sliceStart =>
      match sliceTo text loc.«end» with
      | none => none
      | some sliceEnd =>
          some
            { range :=
                { start :=
                    { line := u32 (countNewlines sliceStart),
                      character := u32 loc.start },
                  «end» :=
                    { line := u32 (countNewlines sliceEnd),
                      character := u32 loc.«end» } },
              severity := some DiagnosticSeverity.ERROR,
              message := get_err_msg res.err }

/-- `errs.into_iter().map(|e| rev_result_to_diagnostic(e, &text)).collect()`:
the diagnostics of a list of located errors, `none` when any single
conversion panics. -/
def collectDiagnostics {T : Type} (get_err_msg : T → String)
    (text : List Char) : List (RizonResult T) → Option (List Diagnostic)
  | [] => some []
  | e :: es =>
      match rev_result_to_diagnostic get_err_msg e text,
            collectDiagnostics get_err_msg text es with
      | some d, some ds => some (d :: ds)
      | _, _ => none

/-- Observable outcome of one `parse_and_store` call: the sequence of
`publish_diagnostics` payloads issued for the URI, and whether
`parser.parse` was reached. -/
structure StoreTrace where
  published : List (List Diagnostic)
  parserInvoked : Bool
  deriving DecidableEq

/-- `Backend::parse_and_store` (src/main.rs:72-104), parameterised by the
external `tokenize` and `parse` functions: on lexer failure every lex
error is converted and published and the function returns without
touching the parser; on lexer success the parser runs, an empty
diagnostic list is published on parse success, and the converted parse
errors are published on parse failure.  `none` means a conversion
panicked before any publish. -/
def parse_and_store {T Tok A : Type} (get_err_msg : T → String)
    (tokenize : List Char → Except (List (RizonResult T)) (List Tok))
    (parse : List Tok → Except (List (RizonResult T)) A)
    (text : List Char) : Option StoreTrace :=
  match tokenize text with
  | .error errs =>
      (collectDiagnostics get_err_msg text errs).map fun diags =>
        { published := [diags], parserInvoked := false }
  | .ok tks =>
      match parse tks with
      | .ok _ => some { published := [[]], parserInvoked := true }
      | .error errs =>
          (collectDiagnostics get_err_msg text errs).map fun diags =>
            { published := [diags], parserInvoked := true }

/-- One element of `DidChangeTextDocumentParams::content_changes`; only
the full replacement text matters under full synchronization. -/
structure ContentChange where
  text : List Char
  deriving DecidableEq

/-- Observable outcome of one `did_change` notification: which text (if
any) was handed to `parse_and_store`, plus that call's trace. -/
structure DidChangeTrace where
  reparsed : Option (List Char)
  published : List (List Diagnostic)
  parserInvoked : Bool
  deriving DecidableEq

/-- `Backend::did_change` (src/main.rs:60-68): takes the last content
change, if any, and runs `parse_and_store` on its text; an empty change
list does nothing. -/
def did_change {T Tok A : Type} (get_err_msg : T → String)
    (tokenize : List Char → Except (List (RizonResult T)) (List Tok))
    (parse : List Tok → Except (List (RizonResult T)) A)
    (changes : List ContentChange) : Option DidChangeTrace :=
  match changes.getLast? with
  | none => some { reparsed := none, published := [], parserInvoked := false }
  | some change =>
      (parse_and_store get_err_msg tokenize parse change.text).map fun st =>
        { reparsed := some change.text, published := st.published,
          parserInvoked := st.parserInvoked }

/-- Modelled from the spec (4.1): the byte offset of the start of line
`l`, i.e. the offset immediately after the `l`-th newline, or `0` when
`l = 0`; used to state what the spec demands of `character` and of the
round-trip. -/
def lineStartOffset : List Char → Nat → Nat
  | _, 0 => 0
  | [], _ + 1 => 0
  | c :: cs, l + 1 =>
      if c == '\n' then utf8Len c + lineStartOffset cs l
      else utf8Len c + lineStartOffset cs (l + 1)

/-- Sample text `"a\nb"`: two lines, line 1 starting at byte offset 2. -/
def sampleText : List Char := ['a', '\n', 'b']

/-- Sample text `"é"`: one character occupying two bytes, so byte offset 1
is not a character boundary. -/
def accentText : List Char := ['é']

theorem sliceTo_zero (text : List Char) : sliceTo text 0 = some [] := by
  cases text <;> rfl

/-- Claim C1 (code bug witness): on text `"a\nb"` at byte offset 2 (the
start of line 1), the code produces `character = 2`, the raw buffer
offset, whereas the claimed contract demands `o` minus the line start
offset, i.e. `2 - 2 = 0`; so the produced position differs from the
claimed one. -/
theorem c1_character_is_buffer_offset :
    (rev_result_to_diagnostic (fun s : String => s)
        ⟨some (Loc.new 2 2), "m"⟩ sampleText).map (fun d => d.range.start) =
      some ⟨1, 2⟩ ∧
    lineStartOffset sampleText 1 = 2 ∧
    (2 : Nat) ≠ 2 - lineStartOffset sampleText 1 := by
  decide

/-- Claim C2 (code bug witness): translating offset 2 of `"a\nb"` gives
`{line := 1, character := 2}`; reconstructing the offset as the start of
line 1 plus the character yields `2 + 2 = 4 ≠ 2`, so the round-trip is
not exact. -/
theorem c2_roundtrip_fails :
    (rev_result_to_diagnostic (fun s : String => s)
        ⟨some (Loc.new 2 2), "m"⟩ sampleText).map (fun d => d.range.start) =
      some ⟨1, 2⟩ ∧
    lineStartOffset sampleText 1 + 2 = 4 ∧ (4 : Nat) ≠ 2 := by
  decide

/-- Claim C3 (code bug witness): on text `"é"` (byte length 2) the span
`{start := 1, end := 1}` satisfies `start ≤ end ≤ len`, yet the
translation panics (`none`) because byte offset 1 falls inside the
two-byte encoding of `é` and Rust string slicing panics there. -/
theorem c3_panics_inside_multibyte_char :
    byteLen accentText = 2 ∧
    rev_result_to_diagnostic (fun s : String => s)
        ⟨some (Loc.new 1 1), "m"⟩ accentText = none := by
  decide

/-- Claim C7: a located error with an absent span is normalized with the
degenerate span `{0, 0}`, producing an ordinary diagnostic (no panic)
whose range is `{0,0}..{0,0}`. -/
theorem c7_absent_span_degenerate {T : Type} (get_err_msg : T → String)
    (e : T) (text : List Char) :
    rev_result_to_diagnostic get_err_msg ⟨none, e⟩ text =
      some { range := { start := ⟨0, 0⟩, «end» := ⟨0, 0⟩ },
             severity := some DiagnosticSeverity.ERROR,
             message := get_err_msg e } := by
  simp [rev_result_to_diagnostic, sliceTo_zero, countNewlines, u32, Loc.new]

/-- Claim C8: whenever the normalizer produces a diagnostic, its severity
is exactly ERROR and its message is the error's text verbatim. -/
theorem c8_severity_error_message_verbatim {T : Type}
    (get_err_msg : T → String) (res : RizonResult T) (text : List Char)
    (d : Diagnostic)
    (h : rev_result_to_diagnostic get_err_msg res text = some d) :
    d.severity = some DiagnosticSeverity.ERROR ∧
    d.message = get_err_msg res.err := by
  simp only [rev_result_to_diagnostic] at h
  split at h
  · exact absurd h (by simp)
  · split at h
    · exact absurd h (by simp)
    · simp only [Option.some.injEq] at h
      subst h
      exact ⟨rfl, rfl⟩

/-- Witness for C8 at a concrete input: an error with message `"boom"`
and no span over the empty text. -/
theorem c8_witness :
    (Diagnostic.mk (Range.mk (Position.mk 0 0) (Position.mk 0 0))
        (some DiagnosticSeverity.ERROR) "boom").severity =
      some DiagnosticSeverity.ERROR ∧
    (Diagnostic.mk (Range.mk (Position.mk 0 0) (Position.mk 0 0))
        (some DiagnosticSeverity.ERROR) "boom").message = "boom" :=
  c8_severity_error_message_verbatim (fun s => s) ⟨none, "boom"⟩ [] _ rfl

theorem collectDiagnostics_length {T : Type} (get_err_msg : T → String)
    (text : List Char) :
    ∀ errs ds, collectDiagnostics get_err_msg text errs = some ds →
      ds.length = errs.length := by
  intro errs
  induction errs with
  | nil =>
      intro ds h
      simp only [collectDiagnostics, Option.some.injEq] at h
      subst h
      rfl
  | cons e es ih =>
      intro ds h
      simp only [collectDiagnostics] at h
      cases h1 : rev_result_to_diagnostic get_err_msg e text with
      | none => rw [h1] at h; exact absurd h (by simp)
      | some d =>
          rw [h1] at h
          cases h2 : collectDiagnostics get_err_msg text es with
          | none => rw [h2] at h; exact absurd h (by simp)
          | some ds2 =>
              rw [h2] at h
              simp only [Option.some.injEq] at h
              subst h
              simp [ih ds2 h2]

/-- Claim C4: when the lexer fails, `parse_and_store` never reaches the
parser, issues exactly one publish, and that publish holds exactly one
diagnostic per lex error (so no parse error can appear). -/
theorem c4_lex_failure_stops_pipeline {T Tok A : Type} (get_err_msg : T → String)
    (tokenize : List Char → Except (List (RizonResult T)) (List Tok))
    (parse : List Tok → Except (List (RizonResult T)) A)
    (text : List Char) (errs : List (RizonResult T))
    (hlex : tokenize text = .error errs) :
    parse_and_store get_err_msg tokenize parse text =
      (collectDiagnostics get_err_msg text errs).map
        (fun ds => { published := [ds], parserInvoked := false }) ∧
    ∀ tr, parse_and_store get_err_msg tokenize parse text = some tr →
      tr.parserInvoked = false ∧ tr.published.length = 1 ∧
      ∀ ds ∈ tr.published, ds.length = errs.length := by
  have heq : parse_and_store get_err_msg tokenize parse text =
      (collectDiagnostics get_err_msg text errs).map
        (fun ds => { published := [ds], parserInvoked := false }) := by
    simp [parse_and_store, hlex]
  refine ⟨heq, ?_⟩
  intro tr htr
  rw [heq] at htr
  cases h2 : collectDiagnostics get_err_msg text errs with
  | none => rw [h2] at htr; exact absurd htr (by simp)
  | some ds =>
      rw [h2] at htr
      simp only [Option.map_some', Option.some.injEq] at htr
      subst htr
      refine ⟨rfl, rfl, ?_⟩
      intro ds2 hmem
      simp only [List.mem_singleton] at hmem
      subst hmem
      exact collectDiagnostics_length get_err_msg text errs _ h2

/-- Witness for C4: a lexer that always fails with one error over the
empty text; the parser accepts everything and is not reached. -/
theorem c4_witness :
    parse_and_store (fun s : String => s)
        (fun _ : List Char =>
          (Except.error [⟨some (Loc.new 0 0), "bad token"⟩] :
            Except (List (RizonResult String)) (List Unit)))
        (fun _ : List Unit =>
          (Except.ok () : Except (List (RizonResult String)) Unit)) [] =
      (collectDiagnostics (fun s : String => s) []
          [⟨some (Loc.new 0 0), "bad token"⟩]).map
        (fun ds => { published := [ds], parserInvoked := false }) :=
  (c4_lex_failure_stops_pipeline _ _ _ _ _ rfl).1

/-- Claim C5: when the lexer succeeds, `parse_and_store` runs the parser;
on parse success it performs one publish whose payload is the empty set
(clearing stale diagnostics), and on parse failure it performs one
publish holding exactly the normalized parse errors. -/
theorem c5_publish_after_lex_success {T Tok A : Type} (get_err_msg : T → String)
    (tokenize : List Char → Except (List (RizonResult T)) (List Tok))
    (parse : List Tok → Except (List (RizonResult T)) A)
    (text : List Char) (tks : List Tok)
    (hlex : tokenize text = .ok tks) :
    (∀ a, parse tks = .ok a →
      parse_and_store get_err_msg tokenize parse text =
        some { published := [[]], parserInvoked := true }) ∧
    (∀ errs, parse tks = .error errs →
      parse_and_store get_err_msg tokenize parse text =
        (collectDiagnostics get_err_msg text errs).map
          (fun ds => { published := [ds], parserInvoked := true })) := by
  constructor
  · intro a hp
    simp [parse_and_store, hlex, hp]
  · intro errs hp
    simp [parse_and_store, hlex, hp]

/-- Witness for C5: lexer and parser that both succeed on the empty text;
the trace records one publish of the empty diagnostic set. -/
theorem c5_witness :
    parse_and_store (fun s : String => s)
        (fun _ : List Char =>
          (Except.ok [] : Except (List (RizonResult String)) (List Unit)))
        (fun _ : List Unit =>
          (Except.ok () : Except (List (RizonResult String)) Unit)) [] =
      some { published := [[]], parserInvoked := true } :=
  (c5_publish_after_lex_success (fun s : String => s)
      (fun _ : List Char =>
        (Except.ok [] : Except (List (RizonResult String)) (List Unit)))
      (fun _ : List Unit =>
        (Except.ok () : Except (List (RizonResult String)) Unit))
      [] [] rfl).1 () rfl

/-- Claim C9: a document-changed notification with a non-empty payload
list behaves exactly like one carrying only its last payload, and the
reparsed text is exactly that last payload's text. -/
theorem c9_last_payload_authoritative {T Tok A : Type}
    (get_err_msg : T → String)
    (tokenize : List Char → Except (List (RizonResult T)) (List Tok))
    (parse : List Tok → Except (List (RizonResult T)) A)
    (changes : List ContentChange) (c : ContentChange)
    (h : changes.getLast? = some c) :
    did_change get_err_msg tokenize parse changes =
      did_change get_err_msg tokenize parse [c] ∧
    did_change get_err_msg tokenize parse changes =
      (parse_and_store get_err_msg tokenize parse c.text).map
        (fun st => { reparsed := some c.text, published := st.published,
                     parserInvoked := st.parserInvoked }) := by
  constructor
  · simp [did_change, h]
  · simp [did_change, h]

/-- Witness for C9 on two payloads: only the text of the second is
reparsed and published from. -/
theorem c9_witness :
    did_change (fun s : String => s)
        (fun _ : List Char =>
          (Except.ok [] : Except (List (RizonResult String)) (List Unit)))
        (fun _ : List Unit =>
          (Except.ok () : Except (List (RizonResult String)) Unit))
        [⟨['a']⟩, ⟨['b']⟩] =
      (parse_and_store (fun s : String => s)
          (fun _ : List Char =>
            (Except.ok [] : Except (List (RizonResult String)) (List Unit)))
          (fun _ : List Unit =>
            (Except.ok () : Except (List (RizonResult String)) Unit))
          ['b']).map
        (fun st => { reparsed := some ['b'], published := st.published,
                     parserInvoked := st.parserInvoked }) :=
  (c9_last_payload_authoritative _ _ _ [⟨['a']⟩, ⟨['b']⟩] ⟨['b']⟩ rfl).2

/-- Claim C10: a document-changed notification with an empty content
change list performs no reparse and publishes nothing. -/
theorem c10_empty_changes_no_effect {T Tok A : Type} (get_err_msg : T → String)
    (tokenize : List Char → Except (List (RizonResult T)) (List Tok))
    (parse : List Tok → Except (List (RizonResult T)) A) :
    did_change get_err_msg tokenize parse [] =
      some { reparsed := none, published := [], parserInvoked := false } := rfl

end RizonLsp
